import Mathlib

/-!
Shallow embedding of the WebQuizMaster repository (a Flask + SQLAlchemy
talent-scouting CRUD application) and proofs about its route handlers.

Sources embedded here:
  - src/models.py        : the SQLAlchemy schema (User, Player, Video rows)
  - src/routes.py        : age-gated registration, login (blueprint auth)
  - src/main.py          : legacy register/login, create_player, search_players,
                           player_profile
  - src/app.py           : a second legacy register/login application
  - src/video_routes.py  : video upload / retrieval and the YouTube URL checks

Conventions:
  - JSON payloads are modeled as association lists; `jget`/`jhas`/`jtruthy`
    mirror Python's `d.get(k)` / `k in d` / `not d.get(k)` on string-valued
    fields (the type every endpoint in scope expects for these fields).
  - SQLAlchemy's declarative constructor is modeled by the `*New` functions:
    for each keyword argument in order it raises TypeError (here:
    `Except.error`) when the mapped class has no attribute of that name,
    otherwise assigns it.  The attribute lists below are transcribed from
    src/models.py (columns, relationships, backrefs and properties).
  - Library functions external to the repository (werkzeug password hashing,
    `secure_filename`) are taken as function parameters; nothing is assumed
    about them.
  - `urlparse`/`parse_qs` follow CPython's `urllib.parse` on the fragment of
    inputs relevant here; percent-decoding and plus-decoding of query values
    are not modeled (no claim exercises escaped URLs).
-/

/-- A Python value as it appears in the payloads and rows in scope. -/
inductive PyVal where
  | vstr (s : String)
  | vint (n : Int)
  | vdate (y m d : Nat)
  | vlist (l : List String)
  | vnone
deriving DecidableEq, Repr

/-- A calendar date, as produced by `datetime.strptime(s, "%Y-%m-%d").date()`. -/
structure PyDate where
  year : Nat
  month : Nat
  day : Nat
deriving DecidableEq, Repr

/-- Test whether `needle` is an initial segment of `hay`. -/
def listStartsWith : List Char → List Char → Bool
  | _, [] => true
  | [], _ :: _ => false
  | a :: as, b :: bs => a == b && listStartsWith as bs

/-- Substring search on character lists. -/
def listContainsSub (hay needle : List Char) : Bool :=
  match hay with
  | [] => needle.isEmpty
  | _ :: rest => listStartsWith hay needle || listContainsSub rest needle

/-- Python `sub in s` on strings (substring containment). -/
def strContains (hay needle : String) : Bool :=
  listContainsSub hay.toList needle.toList

/-- Split a character list on every occurrence of `sep` (Python
`s.split(sep)` for a one-character separator). -/
def splitOnCharAux (sep : Char) : List Char → List Char → List (List Char)
  | [], acc => [acc.reverse]
  | c :: rest, acc =>
    if c == sep then acc.reverse :: splitOnCharAux sep rest []
    else splitOnCharAux sep rest (c :: acc)

/-- Python `s.split(sep)` for a one-character separator. -/
def splitOnChar (s : String) (sep : Char) : List String :=
  (splitOnCharAux sep s.toList []).map String.mk

/-- ASCII lowercase of one character (Python `str.lower` on the ASCII inputs
in scope; other characters pass through unchanged). -/
def charLower (c : Char) : Char :=
  if 65 ≤ c.toNat && c.toNat ≤ 90 then Char.ofNat (c.toNat + 32) else c

/-- Python `s.lower()` (ASCII). -/
def strLower (s : String) : String :=
  String.mk (s.toList.map charLower)

/-- Python `s[1:]`: drop the first character. -/
def strDrop1 (s : String) : String :=
  String.mk (s.toList.drop 1)

/-- Numeric value of a digit string (the argument is all digits). -/
def digitsToNat (cs : List Char) : Nat :=
  cs.foldl (fun acc c => acc * 10 + (c.toNat - 48)) 0

/-- Python `d.get(k)` on a JSON object with string values. -/
def jget (d : List (String × String)) (k : String) : Option String :=
  (d.find? (fun p => p.fst == k)).map (fun p => p.snd)

/-- Python `d.get(k, dflt)`. -/
def jgetD (d : List (String × String)) (k : String) (dflt : String) : String :=
  (jget d k).getD dflt

/-- Python `k in d`. -/
def jhas (d : List (String × String)) (k : String) : Bool :=
  (d.find? (fun p => p.fst == k)).isSome

/-- Python truthiness of `d.get(k)`: present and a non-empty string. -/
def jtruthy (d : List (String × String)) (k : String) : Bool :=
  match jget d k with
  | some s => s != ""
  | none => false

/-- Lookup in a payload whose values are arbitrary Python values. -/
def pvget (d : List (String × PyVal)) (k : String) : Option PyVal :=
  (d.find? (fun p => p.fst == k)).map (fun p => p.snd)

/-- Python `k in d` for `PyVal` payloads. -/
def pvhas (d : List (String × PyVal)) (k : String) : Bool :=
  (d.find? (fun p => p.fst == k)).isSome

/-- Python `d.get(k, dflt)` for `PyVal` payloads. -/
def pvgetD (d : List (String × PyVal)) (k : String) (dflt : PyVal) : PyVal :=
  (pvget d k).getD dflt

/-- Gregorian leap-year test, as in Python's `calendar`/`datetime`. -/
def isLeapYear (y : Nat) : Bool :=
  (y % 4 == 0 && y % 100 != 0) || y % 400 == 0

/-- Number of days in a month, as validated by `datetime.date`. -/
def daysInMonth (y m : Nat) : Nat :=
  if m == 2 then (if isLeapYear y then 29 else 28)
  else if m == 4 || m == 6 || m == 9 || m == 11 then 30
  else 31

/-- Embedding of `datetime.strptime(s, "%Y-%m-%d")` from src/routes.py line 54:
exactly three dash-separated components, a 4-digit year, a 1-2 digit month in
1..12, a 1-2 digit day valid for that month; `none` models `ValueError`. -/
def parseDate (s : String) : Option PyDate :=
  match splitOnCharAux '-' s.toList [] with
  | [ys, ms, ds] =>
    if ys.length == 4 && ys.all Char.isDigit
        && !ms.isEmpty && ms.length ≤ 2 && ms.all Char.isDigit
        && !ds.isEmpty && ds.length ≤ 2 && ds.all Char.isDigit then
      let y := digitsToNat ys
      let m := digitsToNat ms
      let d := digitsToNat ds
      if 1 ≤ y && 1 ≤ m && m ≤ 12 && 1 ≤ d && d ≤ daysInMonth y m then
        some ⟨y, m, d⟩
      else none
    else none
  | _ => none

/-- Python tuple comparison `(a1, a2) < (b1, b2)` (lexicographic). -/
def pairLtLex (a b : Nat × Nat) : Bool :=
  a.fst < b.fst || (a.fst == b.fst && a.snd < b.snd)

/-- Embedding of `calculate_age` from src/routes.py lines 14-16:
`today.year - birth.year - ((today.month, today.day) < (birth.month, birth.day))`. -/
def calculate_age (today birth : PyDate) : Int :=
  (today.year : Int) - (birth.year : Int) -
    (if pairLtLex (today.month, today.day) (birth.month, birth.day) then 1 else 0)

/-- Attributes of the mapped class `User` in src/models.py lines 9-42: columns,
relationships, and the `age`/`full_name` properties.  Note there is no
`username` attribute. -/
def userAttrs : List String :=
  ["id", "first_name", "last_name", "date_of_birth", "email", "password_hash",
   "created_at", "role", "team", "players", "parent_relationships",
   "access_requests", "age", "full_name"]

/-- Attributes of the mapped class `Player` in src/models.py lines 44-58:
columns, relationships, and the `user` backref.  Note there is no `name`,
`team` or `role` attribute. -/
def playerAttrs : List String :=
  ["id", "user_id", "created_at", "goals", "assists", "matches_played",
   "videos", "parent_relationships", "access_requests", "user"]

/-- Attributes of the mapped class `Video` in src/models.py lines 78-92:
columns and the `player` backref.  Note there is no `action_type` or
`skill_rating` attribute. -/
def videoAttrs : List String :=
  ["id", "title", "filename", "video_url", "video_type", "youtube_id",
   "upload_date", "duration", "filesize", "player_id", "user_id", "tags",
   "notes", "player"]

/-- A `user` table row (src/models.py lines 9-18).  Columns whose value is
database-assigned or unset at construction carry placeholder defaults; every
reachable success path in the routes overwrites the fields it uses. -/
structure UserRow where
  id : Int
  first_name : String
  last_name : String
  date_of_birth : Option PyDate
  email : String
  password_hash : String
  created_at : Int
  role : String
  team : String
deriving DecidableEq, Repr

/-- A freshly constructed `User` object before any attribute assignment. -/
def userDefault (id created : Int) : UserRow :=
  ⟨id, "", "", none, "", "", created, "", ""⟩

/-- A `player` table row (src/models.py lines 44-51). -/
structure PlayerRow where
  id : Int
  user_id : Int
  created_at : Int
  goals : Int
  assists : Int
  matches_played : Int
deriving DecidableEq, Repr

/-- A freshly constructed `Player` object before any attribute assignment. -/
def playerDefault (id created : Int) : PlayerRow :=
  ⟨id, 0, created, 0, 0, 0⟩

/-- A `video` table row (src/models.py lines 78-92).  The `duration` column is
a `Float` in the source; no route in scope ever writes or branches on it, so it
is carried opaquely as an optional integer. -/
structure VideoRow where
  id : Int
  title : String
  filename : Option String
  video_url : Option String
  video_type : String
  youtube_id : Option String
  upload_date : Int
  duration : Option Int
  filesize : Option Int
  player_id : Int
  user_id : Int
  tags : List String
  notes : String
deriving DecidableEq, Repr

/-- A freshly constructed `Video` object; `video_type` has column default
"file". -/
def videoDefault (id uploadDate : Int) : VideoRow :=
  ⟨id, "", none, none, "file", none, uploadDate, none, none, 0, 0, [], ""⟩

/-- Assignment of one constructor keyword to a `User` object.  `none` covers
attributes the routes never assign (relationships, read-only properties). -/
def userSetattr (u : UserRow) (k : String) (v : PyVal) : Option UserRow :=
  match k, v with
  | "first_name", .vstr s => some {u with first_name := s}
  | "last_name", .vstr s => some {u with last_name := s}
  | "email", .vstr s => some {u with email := s}
  | "team", .vstr s => some {u with team := s}
  | "role", .vstr s => some {u with role := s}
  | "password_hash", .vstr s => some {u with password_hash := s}
  | "date_of_birth", .vdate y m d => some {u with date_of_birth := some ⟨y, m, d⟩}
  | "id", .vint n => some {u with id := n}
  | "created_at", .vint n => some {u with created_at := n}
  | _, _ => none

/-- SQLAlchemy's declarative constructor for `User`: for each keyword argument
in order, raise TypeError when the class has no attribute of that name, else
assign it. -/
def userNew (u : UserRow) : List (String × PyVal) → Except String UserRow
  | [] => .ok u
  | (k, v) :: rest =>
    if userAttrs.contains k then
      match userSetattr u k v with
      | some u2 => userNew u2 rest
      | none => .error ("cannot assign attribute " ++ k)
    else .error (k ++ " is an invalid keyword argument for User")

/-- Assignment of one constructor keyword to a `Player` object. -/
def playerSetattr (p : PlayerRow) (k : String) (v : PyVal) : Option PlayerRow :=
  match k, v with
  | "user_id", .vint n => some {p with user_id := n}
  | "goals", .vint n => some {p with goals := n}
  | "assists", .vint n => some {p with assists := n}
  | "matches_played", .vint n => some {p with matches_played := n}
  | "id", .vint n => some {p with id := n}
  | "created_at", .vint n => some {p with created_at := n}
  | _, _ => none

/-- SQLAlchemy's declarative constructor for `Player`. -/
def playerNew (p : PlayerRow) : List (String × PyVal) → Except String PlayerRow
  | [] => .ok p
  | (k, v) :: rest =>
    if playerAttrs.contains k then
      match playerSetattr p k v with
      | some p2 => playerNew p2 rest
      | none => .error ("cannot assign attribute " ++ k)
    else .error (k ++ " is an invalid keyword argument for Player")

/-- Assignment of one constructor keyword to a `Video` object. -/
def videoSetattr (v : VideoRow) (k : String) (w : PyVal) : Option VideoRow :=
  match k, w with
  | "title", .vstr s => some {v with title := s}
  | "filename", .vstr s => some {v with filename := some s}
  | "video_url", .vstr s => some {v with video_url := some s}
  | "video_type", .vstr s => some {v with video_type := s}
  | "youtube_id", .vstr s => some {v with youtube_id := some s}
  | "notes", .vstr s => some {v with notes := s}
  | "tags", .vlist l => some {v with tags := l}
  | "player_id", .vint n => some {v with player_id := n}
  | "user_id", .vint n => some {v with user_id := n}
  | "filesize", .vint n => some {v with filesize := some n}
  | "duration", .vint n => some {v with duration := some n}
  | "id", .vint n => some {v with id := n}
  | "upload_date", .vint n => some {v with upload_date := n}
  | _, _ => none

/-- SQLAlchemy's declarative constructor for `Video`. -/
def videoNew (v : VideoRow) : List (String × PyVal) → Except String VideoRow
  | [] => .ok v
  | (k, w) :: rest =>
    if videoAttrs.contains k then
      match videoSetattr v k w with
      | some v2 => videoNew v2 rest
      | none => .error ("cannot assign attribute " ++ k)
    else .error (k ++ " is an invalid keyword argument for Video")

/-- Result of `urllib.parse.urlparse`. -/
structure ParsedUrl where
  scheme : String
  netloc : String
  path : String
  query : String
  fragment : String
deriving DecidableEq, Repr

/-- Characters allowed in a URL scheme after the leading letter. -/
def isSchemeTailChar (c : Char) : Bool :=
  c.isAlphanum || c == '+' || c == '-' || c == '.'

/-- Split a character list at the first occurrence of `sep`; `none` when the
separator does not occur. -/
def splitOnFirstChar (cs : List Char) (sep : Char) : List Char × Option (List Char) :=
  let (pre, rest) := cs.span (fun c => c ≠ sep)
  match rest with
  | [] => (pre, none)
  | _ :: tail => (pre, some tail)

/-- Embedding of `urllib.parse.urlparse` (CPython `urlsplit`): an optional
scheme before the first colon, a netloc after a leading `//` up to the next
slash, question mark or hash, then fragment and query splits. -/
def urlparse (url : String) : ParsedUrl :=
  let cs := url.toList
  let (pre, rest0) := cs.span (fun c => c ≠ ':')
  let schemeRest : String × List Char :=
    match rest0 with
    | [] => ("", cs)
    | _ :: tail =>
      if pre ≠ [] && (pre.headD ' ').isAlpha && pre.all isSchemeTailChar then
        (String.mk (pre.map charLower), tail)
      else ("", cs)
  let scheme := schemeRest.fst
  let rest1 := schemeRest.snd
  let netlocRest : String × List Char :=
    match rest1 with
    | '/' :: '/' :: tail =>
      let (nl, r) := tail.span (fun c => c ≠ '/' && c ≠ '?' && c ≠ '#')
      (String.mk nl, r)
    | _ => ("", rest1)
  let netloc := netlocRest.fst
  let rest2 := netlocRest.snd
  let fragSplit := splitOnFirstChar rest2 '#'
  let fragment := (fragSplit.snd.map String.mk).getD ""
  let querySplit := splitOnFirstChar fragSplit.fst '?'
  let path := String.mk querySplit.fst
  let query := (querySplit.snd.map String.mk).getD ""
  ⟨scheme, netloc, path, query, fragment⟩

/-- Embedding of `urllib.parse.parse_qsl` with default arguments: fields are
split on `&`; a field without `=` or with an empty value is dropped
(`keep_blank_values=False`).  Percent-decoding is not modeled. -/
def parseQsl (query : String) : List (String × String) :=
  (splitOnCharAux '&' query.toList []).filterMap (fun field =>
    if field.isEmpty then none
    else
      match splitOnFirstChar field '=' with
      | (_, none) => none
      | (nameCs, some valCs) =>
        if valCs.isEmpty then none
        else some (String.mk nameCs, String.mk valCs))

/-- Python `k in parse_qs(query)`. -/
def parse_qs_has (query k : String) : Bool :=
  (parseQsl query).any (fun p => p.fst == k)

/-- Python `parse_qs(query).get(k, [None])[0]`: the first value bound to `k`. -/
def parse_qs_first (query k : String) : Option String :=
  ((parseQsl query).find? (fun p => p.fst == k)).map (fun p => p.snd)

/-- Embedding of `is_youtube_url` from src/video_routes.py lines 37-43.  Note
the host test is substring containment on the netloc, not equality. -/
def is_youtube_url (url : String) : Bool :=
  let parsed := urlparse url
  if strContains parsed.netloc "youtube.com" then parse_qs_has parsed.query "v"
  else if strContains parsed.netloc "youtu.be" then strDrop1 parsed.path != ""
  else false

/-- Embedding of `get_youtube_video_id` from src/video_routes.py lines 45-52. -/
def get_youtube_video_id (url : String) : Option String :=
  let parsed := urlparse url
  if strContains parsed.netloc "youtube.com" then parse_qs_first parsed.query "v"
  else if strContains parsed.netloc "youtu.be" then some (strDrop1 parsed.path)
  else none

/-- The upload extension allow-list, src/video_routes.py line 20. -/
def ALLOWED_EXTENSIONS : List String := ["mp4", "webm", "ogg"]

/-- Python `filename.rsplit(".", 1)[1]` when a dot is present: the substring
after the last dot. -/
def rsplitLastDot (s : String) : String :=
  String.mk ((s.toList.reverse.takeWhile (fun c => c ≠ '.')).reverse)

/-- Embedding of `allowed_file` from src/video_routes.py lines 34-35. -/
def allowed_file (filename : String) : Bool :=
  strContains filename "." && ALLOWED_EXTENSIONS.contains (strLower (rsplitLastDot filename))

/-- Outcome of a registration endpoint: HTTP status, JSON error message if
any, redirect target if any, the user and player tables after the request, and
the session identity established by `login_user` if any. -/
structure RegOutcome where
  status : Nat
  error : Option String
  redirect : Option String
  users : List UserRow
  players : List PlayerRow
  session : Option Int
deriving DecidableEq, Repr

/-- Required fields of the age-gated registration, src/routes.py line 40. -/
def registerRequiredFields : List String :=
  ["first_name", "last_name", "date_of_birth", "email", "password"]

/-- Embedding of `register` from src/routes.py lines 18-110 (blueprint
`auth_bp`).  `gph` is werkzeug's `generate_password_hash`; `today` is the date
at which the request executes; `nextUserId`/`nextPlayerId` are the
autoincrement keys the database would assign; `now` the insertion timestamp. -/
def register_auth (gph : String → String) (today : PyDate)
    (users : List UserRow) (players : List PlayerRow)
    (nextUserId nextPlayerId now : Int)
    (data : List (String × String)) : RegOutcome :=
  if data == [] then
    ⟨400, some "No data received", none, users, players, none⟩
  else
    let missing := registerRequiredFields.filter (fun f => !(jtruthy data f))
    if missing != [] then
      ⟨400, some ("Missing required fields: " ++ String.intercalate ", " missing),
        none, users, players, none⟩
    else
      match parseDate (jgetD data "date_of_birth" "") with
      | none => ⟨400, some "Invalid date format", none, users, players, none⟩
      | some dob =>
        if calculate_age today dob < 14 then
          ⟨400, some "Devi avere almeno 14 anni per registrarti", none, users, players, none⟩
        else if users.any (fun u => u.email == jgetD data "email" "") then
          ⟨400, some "Email già registrata", none, users, players, none⟩
        else
          match userNew (userDefault nextUserId now)
              [("first_name", .vstr (jgetD data "first_name" "")),
               ("last_name", .vstr (jgetD data "last_name" "")),
               ("date_of_birth", .vdate dob.year dob.month dob.day),
               ("email", .vstr (jgetD data "email" "")),
               ("team", .vstr (jgetD data "team" "")),
               ("role", .vstr "player")] with
          | .error _ => ⟨500, some "Error creating user profile", none, users, players, none⟩
          | .ok u0 =>
            let u := {u0 with password_hash := gph (jgetD data "password" "")}
            match playerNew (playerDefault nextPlayerId now) [("user_id", .vint nextUserId)] with
            | .error _ =>
              ⟨500, some "Error creating user profile", none, users ++ [u], players, none⟩
            | .ok p =>
              ⟨201, none, some "/dashboard", users ++ [u], players ++ [p], some nextUserId⟩

/-- Embedding of `register` from src/main.py lines 79-106: requires
`username`/`email`/`password`, checks the email for duplicates, then calls
`User(username=..., email=...)`.  The constructor error is uncaught in the
handler, so Flask answers 500. -/
def register_main (gph : String → String) (users : List UserRow)
    (players : List PlayerRow) (nextUserId now : Int)
    (data : List (String × String)) : RegOutcome :=
  if data == [] || !(jhas data "email") || !(jhas data "password") || !(jhas data "username") then
    ⟨400, some "Missing required fields", none, users, players, none⟩
  else if users.any (fun u => u.email == jgetD data "email" "") then
    ⟨400, some "Email already registered", none, users, players, none⟩
  else
    match userNew (userDefault nextUserId now)
        [("username", .vstr (jgetD data "username" "")),
         ("email", .vstr (jgetD data "email" ""))] with
    | .error e => ⟨500, some e, none, users, players, none⟩
    | .ok u0 =>
      let u := {u0 with password_hash := gph (jgetD data "password" "")}
      ⟨201, none, some "/", users ++ [u], players, some nextUserId⟩

/-- Embedding of `register` from src/app.py lines 39-63: identical validation
to src/main.py's register, but no redirect and no `login_user` call. -/
def register_app (gph : String → String) (users : List UserRow)
    (players : List PlayerRow) (nextUserId now : Int)
    (data : List (String × String)) : RegOutcome :=
  if data == [] || !(jhas data "email") || !(jhas data "password") || !(jhas data "username") then
    ⟨400, some "Missing required fields", none, users, players, none⟩
  else if users.any (fun u => u.email == jgetD data "email" "") then
    ⟨400, some "Email already registered", none, users, players, none⟩
  else
    match userNew (userDefault nextUserId now)
        [("username", .vstr (jgetD data "username" "")),
         ("email", .vstr (jgetD data "email" ""))] with
    | .error e => ⟨500, some e, none, users, players, none⟩
    | .ok u0 =>
      let u := {u0 with password_hash := gph (jgetD data "password" "")}
      ⟨201, none, none, users ++ [u], players, none⟩

/-- Outcome of a login endpoint. -/
structure LoginOutcome where
  status : Nat
  error : Option String
  redirect : Option String
  session : Option Int
deriving DecidableEq, Repr

/-- Embedding of `login` from src/routes.py lines 121-144.  `cph` is
werkzeug's `check_password_hash`, applied to the stored hash and the supplied
password. -/
def login_auth (cph : String → String → Bool) (users : List UserRow)
    (data : List (String × String)) : LoginOutcome :=
  if data == [] || !(jhas data "email") || !(jhas data "password") then
    ⟨400, some "Email e password sono richiesti", none, none⟩
  else
    match users.find? (fun u => u.email == jgetD data "email" "") with
    | some u =>
      if cph u.password_hash (jgetD data "password" "") then
        ⟨200, none, some "/dashboard", some u.id⟩
      else ⟨401, some "Email o password non validi", none, none⟩
    | none => ⟨401, some "Email o password non validi", none, none⟩

/-- Embedding of `login` from src/main.py lines 108-129 (POST branch). -/
def login_main (cph : String → String → Bool) (users : List UserRow)
    (data : List (String × String)) : LoginOutcome :=
  if data == [] || !(jhas data "email") || !(jhas data "password") then
    ⟨400, some "Missing email or password", none, none⟩
  else
    match users.find? (fun u => u.email == jgetD data "email" "") with
    | some u =>
      if cph u.password_hash (jgetD data "password" "") then
        ⟨200, none, some "/", some u.id⟩
      else ⟨401, some "Invalid email or password", none, none⟩
    | none => ⟨401, some "Invalid email or password", none, none⟩

/-- Outcome of the create-player endpoint. -/
structure CreatePlayerOutcome where
  status : Nat
  error : Option String
  players : List PlayerRow
deriving DecidableEq, Repr

/-- Embedding of `create_player` from src/main.py lines 171-214: requires the
keys `name`, `team` and `role` in the JSON body, then calls
`Player(name=..., team=..., role=..., goals=..., assists=..., user_id=...)`.
The constructor error is caught by the handler, which rolls back and answers
500. -/
def create_player (actorId : Int) (players : List PlayerRow)
    (nextPlayerId now : Int) (data : List (String × PyVal)) : CreatePlayerOutcome :=
  if data == [] || !(["name", "team", "role"].all (fun k => pvhas data k)) then
    ⟨400, some "Missing required fields", players⟩
  else
    match playerNew (playerDefault nextPlayerId now)
        [("name", pvgetD data "name" .vnone),
         ("team", pvgetD data "team" .vnone),
         ("role", pvgetD data "role" .vnone),
         ("goals", pvgetD data "goals" (.vint 0)),
         ("assists", pvgetD data "assists" (.vint 0)),
         ("user_id", .vint actorId)] with
    | .error e => ⟨500, some e, players⟩
    | .ok p => ⟨201, none, players ++ [p]⟩

/-- A reference `Player.<a>` to a class-level attribute, as used when building
a query filter: AttributeError (here `Except.error`) when the mapped class has
no such attribute. -/
def playerClassAttr (a : String) : Except String Unit :=
  if playerAttrs.contains a then .ok ()
  else .error ("type object Player has no attribute " ++ a)

/-- An instance attribute access `player.<a>` on a `Player` row. -/
def playerColVal (p : PlayerRow) (a : String) : Except String PyVal :=
  if a == "id" then .ok (.vint p.id)
  else if a == "user_id" then .ok (.vint p.user_id)
  else if a == "created_at" then .ok (.vint p.created_at)
  else if a == "goals" then .ok (.vint p.goals)
  else if a == "assists" then .ok (.vint p.assists)
  else if a == "matches_played" then .ok (.vint p.matches_played)
  else .error ("Player object has no attribute " ++ a)

/-- Row filter `lower(Player.<a>) LIKE needle-substring` (the needle is
already lowercased by the handler).  SQL LIKE wildcards inside the needle are
not modeled; for this schema the filter is unreachable anyway because no
string column exists on Player. -/
def filterRowsLike (a needle : String) : List PlayerRow → Except String (List PlayerRow)
  | [] => .ok []
  | p :: rest => do
    let v ← playerColVal p a
    let keep ← match v with
      | .vstr s => Except.ok (strContains (strLower s) needle)
      | _ => Except.error "lower() applied to a non-string column"
    let tail ← filterRowsLike a needle rest
    .ok (if keep then p :: tail else tail)

/-- Row filter `Player.<a> == val` (exact string equality). -/
def filterRowsEq (a val : String) : List PlayerRow → Except String (List PlayerRow)
  | [] => .ok []
  | p :: rest => do
    let v ← playerColVal p a
    let tail ← filterRowsEq a val rest
    .ok (if v == .vstr val then p :: tail else tail)

/-- Stable insertion into a list ordered by `created_at` descending. -/
def insertByCreatedDesc (p : PlayerRow) : List PlayerRow → List PlayerRow
  | [] => [p]
  | q :: rest =>
    if q.created_at ≥ p.created_at then q :: insertByCreatedDesc p rest
    else p :: q :: rest

/-- The query `order_by(Player.created_at.desc())` as a stable sort. -/
def orderByCreatedDesc : List PlayerRow → List PlayerRow
  | [] => []
  | p :: rest => insertByCreatedDesc p (orderByCreatedDesc rest)

/-- The serialization dict of `search_players` (src/main.py lines 269-276):
it reads `player.name`, `player.team` and `player.role`, which the Player
model does not carry. -/
def serializePlayer (p : PlayerRow) : Except String (List (String × PyVal)) := do
  let i ← playerColVal p "id"
  let n ← playerColVal p "name"
  let t ← playerColVal p "team"
  let r ← playerColVal p "role"
  let g ← playerColVal p "goals"
  let a ← playerColVal p "assists"
  .ok [("id", i), ("name", n), ("team", t), ("role", r), ("goals", g), ("assists", a)]

/-- Serialize every row in order. -/
def serializePlayers : List PlayerRow → Except String (List (List (String × PyVal)))
  | [] => .ok []
  | p :: rest => do
    let h ← serializePlayer p
    let t ← serializePlayers rest
    .ok (h :: t)

/-- Outcome of the search endpoint: on success a list of serialized players,
otherwise a 500 error (the handler catches every exception). -/
structure SearchOutcome where
  status : Nat
  body : List (List (String × PyVal))
  error : Option String
deriving DecidableEq, Repr

/-- Embedding of `search_players` from src/main.py lines 246-282: lowercases
the `name` and `team` query arguments, conditionally applies the three
filters, orders by creation time descending and serializes.  Each filter
references `Player.name` / `Player.team` / `Player.role`, attributes the
Player model does not have, so building a non-empty filter raises and the
handler answers 500. -/
def search_players (players : List PlayerRow)
    (nameArg teamArg roleArg : String) : SearchOutcome :=
  let name := strLower nameArg
  let team := strLower teamArg
  let role := roleArg
  let result : Except String (List (List (String × PyVal))) := do
    let q1 ← if name != "" then do
        let _ ← playerClassAttr "name"
        filterRowsLike "name" name players
      else Except.ok players
    let q2 ← if team != "" then do
        let _ ← playerClassAttr "team"
        filterRowsLike "team" team q1
      else Except.ok q1
    let q3 ← if role != "" then do
        let _ ← playerClassAttr "role"
        filterRowsEq "role" role q2
      else Except.ok q2
    serializePlayers (orderByCreatedDesc q3)
  match result with
  | .ok body => ⟨200, body, none⟩
  | .error e => ⟨500, [], some e⟩

/-- The multipart form of the upload endpoint.  `video` is the filename of
the uploaded file part (`none` when no part named `video` is present);
`video_size` models `os.path.getsize` on the saved file. -/
structure UploadForm where
  title : Option String
  source_type : Option String
  video : Option String
  video_size : Int
  video_url : Option String
  action_type : Option String
  skill_rating : Option Int
  tags : Option String
  notes : Option String
deriving DecidableEq, Repr

/-- Outcome of the upload endpoint.  `writes` records every `file.save` call
into the upload directory in order; `removes` records the `os.remove` cleanup
calls on the failure path. -/
structure UploadOutcome where
  status : Nat
  error : Option String
  writes : List String
  removes : List String
  videos : List VideoRow
deriving DecidableEq, Repr

/-- Lift an optional string form value to a Python value. -/
def pyOptStr : Option String → PyVal
  | some s => .vstr s
  | none => .vnone

/-- Lift an optional integer form value to a Python value. -/
def pyOptInt : Option Int → PyVal
  | some n => .vint n
  | none => .vnone

/-- Embedding of `upload_video` from src/video_routes.py lines 54-174.  `sfn`
is werkzeug's `secure_filename`.  Both branches construct a Video with
`action_type` and `skill_rating` keywords, which the Video model does not
declare, so the constructor raises after validation; the handler catches,
removes a partially written file, and answers 500. -/
def upload_video (sfn : String → String) (actorId playerId : Int)
    (players : List PlayerRow) (videos : List VideoRow)
    (nextVideoId now : Int) (form : UploadForm) : UploadOutcome :=
  if !(players.any (fun p => p.id == playerId && p.user_id == actorId)) then
    ⟨404, some "Player not found or unauthorized", [], [], videos⟩
  else if form.title.isNone then
    ⟨400, some "Video title is required", [], [], videos⟩
  else
    let source_type := form.source_type.getD "file"
    let tags := match form.tags with
      | some t => if t != "" then splitOnChar t ',' else []
      | none => []
    let notes := form.notes.getD ""
    if source_type == "file" then
      match form.video with
      | none => ⟨400, some "No video file provided", [], [], videos⟩
      | some rawName =>
        if rawName == "" then ⟨400, some "No selected file", [], [], videos⟩
        else if !(allowed_file rawName) then
          ⟨400, some "File type not allowed", [], [], videos⟩
        else
          let filename := sfn rawName
          match videoNew (videoDefault nextVideoId now)
              [("title", .vstr (form.title.getD "")),
               ("filename", .vstr filename),
               ("video_type", .vstr "file"),
               ("player_id", .vint playerId),
               ("user_id", .vint actorId),
               ("filesize", .vint form.video_size),
               ("action_type", pyOptStr form.action_type),
               ("skill_rating", pyOptInt form.skill_rating),
               ("tags", .vlist tags),
               ("notes", .vstr notes)] with
          | .ok v => ⟨201, none, [filename], [], videos ++ [v]⟩
          | .error e => ⟨500, some e, [filename], [filename], videos⟩
    else
      match form.video_url with
      | none => ⟨400, some "No video URL provided", [], [], videos⟩
      | some url =>
        if !(is_youtube_url url) then
          ⟨400, some "Only YouTube URLs are supported", [], [], videos⟩
        else
          match get_youtube_video_id url with
          | none => ⟨400, some "Invalid YouTube URL", [], [], videos⟩
          | some yid =>
            if yid == "" then ⟨400, some "Invalid YouTube URL", [], [], videos⟩
            else
              match videoNew (videoDefault nextVideoId now)
                  [("title", .vstr (form.title.getD "")),
                   ("video_url", .vstr url),
                   ("video_type", .vstr "youtube"),
                   ("youtube_id", .vstr yid),
                   ("player_id", .vint playerId),
                   ("user_id", .vint actorId),
                   ("action_type", pyOptStr form.action_type),
                   ("skill_rating", pyOptInt form.skill_rating),
                   ("tags", .vlist tags),
                   ("notes", .vstr notes)] with
              | .ok v => ⟨201, none, [], [], videos ++ [v]⟩
              | .error e => ⟨500, some e, [], [], videos⟩

/-- Result of `get_video` (src/video_routes.py lines 176-195). -/
inductive GetVideoResult where
  | notFound
  | forbidden
  | fileStream (filename : Option String)
  | youtubeUrl (url : Option String)
  | unknownType
deriving DecidableEq, Repr

/-- Embedding of `get_video` from src/video_routes.py lines 176-195: fetch by
primary key (404 when absent), then 403 unless both the route's player id and
the session user id match the row. -/
def get_video (actorId : Int) (videos : List VideoRow)
    (playerId videoId : Int) : GetVideoResult :=
  match videos.find? (fun v => v.id == videoId) with
  | none => .notFound
  | some v =>
    if v.player_id != playerId || v.user_id != actorId then .forbidden
    else if v.video_type == "file" then .fileStream v.filename
    else if v.video_type == "youtube" then .youtubeUrl v.video_url
    else .unknownType

/-- Result of `get_player_videos` (src/video_routes.py lines 197-222). -/
inductive ListVideosResult where
  | notFound
  | ok (videos : List VideoRow)
deriving DecidableEq, Repr

/-- Embedding of `get_player_videos` from src/video_routes.py lines 197-222:
404 unless a player row with the routed id is owned by the session user, else
every video of that player.  (Its serialization reads only columns the Video
model really has, so it succeeds.) -/
def get_player_videos (actorId : Int) (players : List PlayerRow)
    (videos : List VideoRow) (playerId : Int) : ListVideosResult :=
  if players.any (fun p => p.id == playerId && p.user_id == actorId) then
    .ok (videos.filter (fun v => v.player_id == playerId))
  else .notFound

/-- Result of `player_profile` (src/main.py lines 149-158). -/
inductive ProfileResult where
  | notFound
  | redirect (target : String)
  | page (player : PlayerRow)
deriving DecidableEq, Repr

/-- Embedding of `player_profile` from src/main.py lines 149-158: fetch by
primary key (404 when absent); redirect to the landing page unless the row is
owned by the session user. -/
def player_profile (actorId : Int) (players : List PlayerRow)
    (playerId : Int) : ProfileResult :=
  match players.find? (fun p => p.id == playerId) with
  | none => .notFound
  | some p =>
    if p.user_id != actorId then .redirect "/"
    else .page p

/-! Helper lemmas shared between the claim proofs. -/

/-- The Player model has no `name` attribute, so its constructor raises on
that keyword regardless of the value or the remaining keywords. -/
theorem playerNew_name_invalid (p : PlayerRow) (v : PyVal) (rest : List (String × PyVal)) :
    playerNew p (("name", v) :: rest) =
      .error "name is an invalid keyword argument for Player" := rfl

/-- The User model has no `username` attribute, so the legacy registration
constructor call raises regardless of the values. -/
theorem userNew_username_invalid (u : UserRow) (v w : PyVal) :
    userNew u [("username", v), ("email", w)] =
      .error "username is an invalid keyword argument for User" := rfl

/-- Payload key presence forces a non-empty payload. -/
theorem pvhas_ne_nil {d : List (String × PyVal)} {k : String}
    (h : pvhas d k = true) : (d == []) = false := by
  cases d with
  | nil => simp [pvhas] at h
  | cons a l => rfl

/-- Field truthiness forces a non-empty payload. -/
theorem jtruthy_ne_nil {d : List (String × String)} {k : String}
    (h : jtruthy d k = true) : (d == []) = false := by
  cases d with
  | nil => simp [jtruthy, jget] at h
  | cons a l => rfl

/-- Key presence forces a non-empty payload. -/
theorem jhas_ne_nil {d : List (String × String)} {k : String}
    (h : jhas d k = true) : (d == []) = false := by
  cases d with
  | nil => simp [jhas] at h
  | cons a l => rfl

/-- Reduction of the age-gated registration's User constructor call: all six
keywords are genuine User attributes, so construction succeeds. -/
theorem userNew_register_fields (u : UserRow) (a b : String) (y m dd : Nat) (e t r : String) :
    userNew u
        [("first_name", .vstr a), ("last_name", .vstr b), ("date_of_birth", .vdate y m dd),
         ("email", .vstr e), ("team", .vstr t), ("role", .vstr r)] =
      .ok {u with first_name := a, last_name := b, date_of_birth := some ⟨y, m, dd⟩,
                  email := e, team := t, role := r} := rfl

/-- Reduction of the registration's Player constructor call. -/
theorem playerNew_user_id (p : PlayerRow) (n : Int) :
    playerNew p [("user_id", .vint n)] = .ok {p with user_id := n} := rfl

/-- C1: for every authenticated actor and every JSON payload containing
`name`, `team` and `role`, `create_player` does NOT persist a Player row and
does not answer 201: the Player model lacks those columns, the constructor
raises TypeError, and the handler rolls back and answers 500 with the
TypeError message, leaving the player table unchanged.  (The missing-field
half of the claim does hold: see the 400 branch exercised in the witness of
claim C6 analogues; this theorem also records it.) -/
theorem create_player_complete_payload_crashes
    (actorId nextPlayerId now : Int) (players : List PlayerRow)
    (data : List (String × PyVal))
    (hn : pvhas data "name" = true) (ht : pvhas data "team" = true)
    (hr : pvhas data "role" = true) :
    create_player actorId players nextPlayerId now data =
      ⟨500, some "name is an invalid keyword argument for Player", players⟩ := by
  have hne := pvhas_ne_nil hn
  simp only [create_player, hne, List.all_cons, List.all_nil, hn, ht, hr,
    Bool.and_self, Bool.and_true, Bool.not_true, Bool.or_false, Bool.false_or,
    Bool.or_self, if_false, Bool.false_eq_true, ite_false, playerNew_name_invalid]

/-- Witness for C1: a concrete complete payload is answered 500 and persists
nothing. -/
theorem create_player_crashes_witness :
    create_player 1 [] 7 0
        [("name", .vstr "Mario"), ("team", .vstr "Roma"), ("role", .vstr "striker")] =
      ⟨500, some "name is an invalid keyword argument for Player", []⟩ :=
  create_player_complete_payload_crashes 1 7 0 []
    [("name", .vstr "Mario"), ("team", .vstr "Roma"), ("role", .vstr "striker")]
    rfl rfl rfl

/-- C5: `search_players` with a non-empty name filter never returns players:
building the filter references `Player.name`, which the Player model does not
have, so the handler answers 500 with an empty body, whatever the player
table and the other filters contain. -/
theorem search_players_name_filter_crashes (players : List PlayerRow)
    (nameArg teamArg roleArg : String) (hn : (strLower nameArg != "") = true) :
    search_players players nameArg teamArg roleArg =
      ⟨500, [], some "type object Player has no attribute name"⟩ := by
  simp only [search_players, hn, if_true, bind, Except.bind, playerClassAttr,
    playerAttrs, List.contains, List.elem]
  rfl

/-- Witness for C5: the claim's own query, name="mar" and role="striker", on
a one-row player table, answers 500 and returns no players. -/
theorem search_players_crashes_witness :
    search_players [⟨1, 1, 0, 5, 3, 2⟩] "mar" "" "striker" =
      ⟨500, [], some "type object Player has no attribute name"⟩ :=
  search_players_name_filter_crashes [⟨1, 1, 0, 5, 3, 2⟩] "mar" "" "striker" rfl

/-- The Video model has no `action_type` attribute, so the URL-branch
constructor call of `upload_video` raises whatever the field values are. -/
theorem videoNew_url_branch_raises (v : VideoRow) (t u y : String) (pid uid : Int)
    (a s : PyVal) (tg : List String) (n : String) :
    videoNew v
        [("title", .vstr t), ("video_url", .vstr u), ("video_type", .vstr "youtube"),
         ("youtube_id", .vstr y), ("player_id", .vint pid), ("user_id", .vint uid),
         ("action_type", a), ("skill_rating", s), ("tags", .vlist tg), ("notes", .vstr n)] =
      .error "action_type is an invalid keyword argument for Video" := rfl

/-- C2: for a non-file upload, the URL https://youtube.com/watch (youtube.com
host, no `v` query parameter) is indeed always rejected with 400; but the URL
https://youtu.be/abc123, although it passes validation with extracted id
"abc123", is NOT accepted: the Video model lacks the `action_type` column the
handler passes, the constructor raises after validation, and the handler
answers 500 and stores nothing. -/
theorem upload_youtube_accept_claim_fails
    (sfn : String → String) (actorId playerId : Int)
    (players : List PlayerRow) (videos : List VideoRow)
    (nextVideoId now : Int) (form1 form2 : UploadForm)
    (hown : players.any (fun p => p.id == playerId && p.user_id == actorId) = true)
    (h1t : form1.title.isSome = true) (h1s : form1.source_type = some "url")
    (h1u : form1.video_url = some "https://youtube.com/watch")
    (h2t : form2.title.isSome = true) (h2s : form2.source_type = some "url")
    (h2u : form2.video_url = some "https://youtu.be/abc123") :
    upload_video sfn actorId playerId players videos nextVideoId now form1 =
      ⟨400, some "Only YouTube URLs are supported", [], [], videos⟩ ∧
    upload_video sfn actorId playerId players videos nextVideoId now form2 =
      ⟨500, some "action_type is an invalid keyword argument for Video", [], [], videos⟩ := by
  obtain ⟨t1, ht1⟩ := Option.isSome_iff_exists.mp h1t
  obtain ⟨t2, ht2⟩ := Option.isSome_iff_exists.mp h2t
  have hiy1 : is_youtube_url "https://youtube.com/watch" = false := rfl
  have hiy2 : is_youtube_url "https://youtu.be/abc123" = true := rfl
  have hgid : get_youtube_video_id "https://youtu.be/abc123" = some "abc123" := rfl
  constructor
  · simp [upload_video, hown, ht1, h1s, h1u, hiy1]
  · simp [upload_video, hown, ht2, h2s, h2u, hiy2, hgid, videoNew_url_branch_raises]

/-- Witness for C2 at a concrete owner, player and form. -/
theorem upload_youtube_witness :
    upload_video (fun s => s) 1 1 [⟨1, 1, 0, 0, 0, 0⟩] [] 1 0
        ⟨some "t", some "url", none, 0, some "https://youtube.com/watch",
         none, none, none, none⟩ =
      ⟨400, some "Only YouTube URLs are supported", [], [], []⟩ ∧
    upload_video (fun s => s) 1 1 [⟨1, 1, 0, 0, 0, 0⟩] [] 1 0
        ⟨some "t", some "url", none, 0, some "https://youtu.be/abc123",
         none, none, none, none⟩ =
      ⟨500, some "action_type is an invalid keyword argument for Video", [], [], []⟩ :=
  upload_youtube_accept_claim_fails (fun s => s) 1 1 [⟨1, 1, 0, 0, 0, 0⟩] [] 1 0
    ⟨some "t", some "url", none, 0, some "https://youtube.com/watch", none, none, none, none⟩
    ⟨some "t", some "url", none, 0, some "https://youtu.be/abc123", none, none, none, none⟩
    rfl rfl rfl rfl rfl rfl rfl

/-- C3: a Player or Video owned by user A is never returned to acting user B:
`player_profile` redirects away, `get_video` answers 403 (forbidden), and
`get_player_videos` answers 404, whenever the actor differs from the owner. -/
theorem cross_user_access_blocked
    (A B : Int) (hAB : A ≠ B)
    (players : List PlayerRow) (videos : List VideoRow)
    (pid vid : Int) (p : PlayerRow) (v : VideoRow)
    (hp : players.find? (fun q => q.id == pid) = some p)
    (hpo : p.user_id = A)
    (hpall : ∀ q ∈ players, q.id = pid → q.user_id = A)
    (hv : videos.find? (fun w => w.id == vid) = some v)
    (hvo : v.user_id = A) :
    player_profile B players pid = .redirect "/" ∧
    get_video B videos pid vid = .forbidden ∧
    get_player_videos B players videos pid = .notFound := by
  have hABne : (A != B) = true := by simp [bne_iff_ne]; exact hAB
  refine ⟨?_, ?_, ?_⟩
  · simp only [player_profile, hp]
    rw [hpo, hABne]
    rfl
  · simp only [get_video, hv]
    rw [hvo, hABne, Bool.or_true]
    rfl
  · have hany : players.any (fun q => q.id == pid && q.user_id == B) = false := by
      rw [← Bool.not_eq_true, List.any_eq_true]
      rintro ⟨q, hqmem, hq⟩
      rw [Bool.and_eq_true, beq_iff_eq, beq_iff_eq] at hq
      exact hAB ((hpall q hqmem hq.1).symm.trans hq.2)
    simp [get_player_videos, hany]

/-- Witness for C3: a player and a video owned by user 1 are invisible to
user 2. -/
theorem cross_user_access_witness :
    player_profile 2 [⟨10, 1, 0, 0, 0, 0⟩] 10 = .redirect "/" ∧
    get_video 2 [⟨5, "t", none, some "u", "youtube", some "x", 0, none, none, 10, 1, [], ""⟩] 10 5 =
      .forbidden ∧
    get_player_videos 2 [⟨10, 1, 0, 0, 0, 0⟩]
      [⟨5, "t", none, some "u", "youtube", some "x", 0, none, none, 10, 1, [], ""⟩] 10 =
      .notFound :=
  cross_user_access_blocked 1 2 (by decide) [⟨10, 1, 0, 0, 0, 0⟩]
    [⟨5, "t", none, some "u", "youtube", some "x", 0, none, none, 10, 1, [], ""⟩]
    10 5 ⟨10, 1, 0, 0, 0, 0⟩ ⟨5, "t", none, some "u", "youtube", some "x", 0, none, none, 10, 1, [], ""⟩
    rfl rfl (by decide) rfl rfl

/-- C4: once a user with a given email exists, a registration attempt with
the same email through any of the three registration endpoints is answered
400 with the endpoint's duplicate-email error and leaves the user table
unchanged. -/
theorem duplicate_email_always_rejected
    (gph : String → String) (today : PyDate)
    (users : List UserRow) (players : List PlayerRow)
    (nu np now : Int) (e : String) (d : PyDate)
    (hdup : users.any (fun u => u.email == e) = true)
    (data1 data2 data3 : List (String × String))
    (h11 : jtruthy data1 "first_name" = true) (h12 : jtruthy data1 "last_name" = true)
    (h13 : jtruthy data1 "date_of_birth" = true) (h14 : jtruthy data1 "email" = true)
    (h15 : jtruthy data1 "password" = true)
    (h1e : jgetD data1 "email" "" = e)
    (h1d : parseDate (jgetD data1 "date_of_birth" "") = some d)
    (h1a : ¬ calculate_age today d < 14)
    (h21 : jhas data2 "email" = true) (h22 : jhas data2 "password" = true)
    (h23 : jhas data2 "username" = true) (h2e : jgetD data2 "email" "" = e)
    (h31 : jhas data3 "email" = true) (h32 : jhas data3 "password" = true)
    (h33 : jhas data3 "username" = true) (h3e : jgetD data3 "email" "" = e) :
    register_auth gph today users players nu np now data1 =
      ⟨400, some "Email già registrata", none, users, players, none⟩ ∧
    register_main gph users players nu now data2 =
      ⟨400, some "Email already registered", none, users, players, none⟩ ∧
    register_app gph users players nu now data3 =
      ⟨400, some "Email already registered", none, users, players, none⟩ := by
  refine ⟨?_, ?_, ?_⟩
  · have hne := jtruthy_ne_nil h11
    have hmiss : registerRequiredFields.filter (fun f => !(jtruthy data1 f)) = [] := by
      simp [registerRequiredFields, List.filter, h11, h12, h13, h14, h15]
    rw [register_auth, hne, hmiss]
    rw [h1e] at *
    simp [h1d, h1a, hdup, h1e]
  · have hne := jhas_ne_nil h21
    rw [register_main, hne]
    simp [h21, h22, h23, h2e, hdup]
  · have hne := jhas_ne_nil h31
    rw [register_app, hne]
    simp [h31, h32, h33, h3e, hdup]

/-- Witness for C4: with user a@b.com registered, all three endpoints reject
a second registration with that email and change nothing. -/
theorem duplicate_email_witness :
    register_auth (fun s => s) ⟨2026, 10, 12⟩
        [⟨1, "A", "B", none, "a@b.com", "h", 0, "player", ""⟩] [] 2 2 0
        [("first_name", "A"), ("last_name", "B"), ("date_of_birth", "2000-01-01"),
         ("email", "a@b.com"), ("password", "x")] =
      ⟨400, some "Email già registrata", none,
        [⟨1, "A", "B", none, "a@b.com", "h", 0, "player", ""⟩], [], none⟩ ∧
    register_main (fun s => s) [⟨1, "A", "B", none, "a@b.com", "h", 0, "player", ""⟩] [] 2 0
        [("username", "u"), ("email", "a@b.com"), ("password", "x")] =
      ⟨400, some "Email already registered", none,
        [⟨1, "A", "B", none, "a@b.com", "h", 0, "player", ""⟩], [], none⟩ ∧
    register_app (fun s => s) [⟨1, "A", "B", none, "a@b.com", "h", 0, "player", ""⟩] [] 2 0
        [("username", "u"), ("email", "a@b.com"), ("password", "x")] =
      ⟨400, some "Email already registered", none,
        [⟨1, "A", "B", none, "a@b.com", "h", 0, "player", ""⟩], [], none⟩ :=
  duplicate_email_always_rejected (fun s => s) ⟨2026, 10, 12⟩
    [⟨1, "A", "B", none, "a@b.com", "h", 0, "player", ""⟩] [] 2 2 0 "a@b.com" ⟨2000, 1, 1⟩
    rfl
    [("first_name", "A"), ("last_name", "B"), ("date_of_birth", "2000-01-01"),
     ("email", "a@b.com"), ("password", "x")]
    [("username", "u"), ("email", "a@b.com"), ("password", "x")]
    [("username", "u"), ("email", "a@b.com"), ("password", "x")]
    rfl rfl rfl rfl rfl rfl rfl (by decide)
    rfl rfl rfl rfl rfl rfl rfl rfl

/-- C6: a file upload whose filename fails the extension allow-list never
causes a write to the upload directory, and, whenever the request reaches the
file handling (owned player, title present, non-empty filename), it is
rejected with exactly the 400 File-type-not-allowed error. -/
theorem upload_bad_extension_never_writes
    (sfn : String → String) (actorId playerId : Int)
    (players : List PlayerRow) (videos : List VideoRow)
    (nextVideoId now : Int) (form : UploadForm) (f : String)
    (hsrc : form.source_type.getD "file" = "file")
    (hf : form.video = some f)
    (hext : allowed_file f = false) :
    (upload_video sfn actorId playerId players videos nextVideoId now form).writes = [] ∧
    (players.any (fun p => p.id == playerId && p.user_id == actorId) = true →
      form.title.isSome = true → (f == "") = false →
      upload_video sfn actorId playerId players videos nextVideoId now form =
        ⟨400, some "File type not allowed", [], [], videos⟩) := by
  constructor
  · cases hany : players.any (fun p => p.id == playerId && p.user_id == actorId) with
    | false => simp [upload_video, hany]
    | true =>
      cases htitle : form.title with
      | none => simp [upload_video, hany, htitle]
      | some t =>
        by_cases hfe : (f == "") = true
        · simp [upload_video, hany, htitle, hsrc, hf, hfe]
        · simp only [Bool.not_eq_true] at hfe
          simp [upload_video, hany, htitle, hsrc, hf, hfe, hext]
  · intro hown htitle hfe
    obtain ⟨t, ht⟩ := Option.isSome_iff_exists.mp htitle
    simp [upload_video, hown, ht, hsrc, hf, hfe, hext]

/-- Witness for C6: an upload of virus.exe by the player's owner is rejected
400 and nothing is written. -/
theorem upload_bad_extension_witness :
    upload_video (fun s => s) 1 1 [⟨1, 1, 0, 0, 0, 0⟩] [] 1 0
        ⟨some "t", some "file", some "virus.exe", 0, none, none, none, none, none⟩ =
      ⟨400, some "File type not allowed", [], [], []⟩ :=
  (upload_bad_extension_never_writes (fun s => s) 1 1 [⟨1, 1, 0, 0, 0, 0⟩] [] 1 0
      ⟨some "t", some "file", some "virus.exe", 0, none, none, none, none, none⟩
      "virus.exe" rfl rfl (by decide)).2 rfl rfl rfl

/-- C7: a registration payload whose date of birth computes to an age below
14 is rejected by the age-gated endpoint with the age error and no User row
is created; the two legacy registration endpoints never create a User row on
any payload at all (their `User(username=...)` constructor call always
raises). -/
theorem underage_registration_rejected
    (gph : String → String) (today : PyDate)
    (users : List UserRow) (players : List PlayerRow)
    (nu np now : Int) (d : PyDate) (data : List (String × String))
    (h1 : jtruthy data "first_name" = true) (h2 : jtruthy data "last_name" = true)
    (h3 : jtruthy data "date_of_birth" = true) (h4 : jtruthy data "email" = true)
    (h5 : jtruthy data "password" = true)
    (hd : parseDate (jgetD data "date_of_birth" "") = some d)
    (ha : calculate_age today d < 14) :
    register_auth gph today users players nu np now data =
      ⟨400, some "Devi avere almeno 14 anni per registrarti", none, users, players, none⟩ ∧
    (∀ data2, (register_main gph users players nu now data2).users = users) ∧
    (∀ data2, (register_app gph users players nu now data2).users = users) := by
  refine ⟨?_, ?_, ?_⟩
  · have hne := jtruthy_ne_nil h1
    have hmiss : registerRequiredFields.filter (fun f => !(jtruthy data f)) = [] := by
      simp [registerRequiredFields, List.filter, h1, h2, h3, h4, h5]
    rw [register_auth, hne, hmiss]
    simp [hd, ha]
  · intro data2
    rw [register_main, userNew_username_invalid]
    split
    · rfl
    · split <;> rfl
  · intro data2
    rw [register_app, userNew_username_invalid]
    split
    · rfl
    · split <;> rfl

/-- Witness for C7: a 2015 date of birth evaluated in 2026 computes age 11
and is rejected with the age error. -/
theorem underage_registration_witness :
    register_auth (fun s => s) ⟨2026, 10, 12⟩ [] [] 1 1 0
        [("first_name", "A"), ("last_name", "B"), ("date_of_birth", "2015-01-01"),
         ("email", "a@b.com"), ("password", "x")] =
      ⟨400, some "Devi avere almeno 14 anni per registrarti", none, [], [], none⟩ :=
  (underage_registration_rejected (fun s => s) ⟨2026, 10, 12⟩ [] [] 1 1 0 ⟨2015, 1, 1⟩
    [("first_name", "A"), ("last_name", "B"), ("date_of_birth", "2015-01-01"),
     ("email", "a@b.com"), ("password", "x")]
    rfl rfl rfl rfl rfl rfl (by decide)).1

/-- C8: a login with a registered email and a wrong password produces the
very same outcome as a login with an unregistered email, and that outcome is
the generic 401 invalid-credentials response of the endpoint, for both login
endpoints. -/
theorem login_failure_indistinguishable
    (cph : String → String → Bool) (users : List UserRow)
    (data1 data2 : List (String × String)) (u : UserRow)
    (h1e : jhas data1 "email" = true) (h1p : jhas data1 "password" = true)
    (hu : users.find? (fun q => q.email == jgetD data1 "email" "") = some u)
    (hbad : cph u.password_hash (jgetD data1 "password" "") = false)
    (h2e : jhas data2 "email" = true) (h2p : jhas data2 "password" = true)
    (hnou : users.find? (fun q => q.email == jgetD data2 "email" "") = none) :
    login_auth cph users data1 = login_auth cph users data2 ∧
    login_auth cph users data1 = ⟨401, some "Email o password non validi", none, none⟩ ∧
    login_main cph users data1 = login_main cph users data2 ∧
    login_main cph users data1 = ⟨401, some "Invalid email or password", none, none⟩ := by
  have hne1 := jhas_ne_nil h1e
  have hne2 := jhas_ne_nil h2e
  have e1 : login_auth cph users data1 = ⟨401, some "Email o password non validi", none, none⟩ := by
    rw [login_auth, hne1]
    simp [h1e, h1p, hu, hbad]
  have e2 : login_auth cph users data2 = ⟨401, some "Email o password non validi", none, none⟩ := by
    rw [login_auth, hne2]
    simp [h2e, h2p, hnou]
  have e3 : login_main cph users data1 = ⟨401, some "Invalid email or password", none, none⟩ := by
    rw [login_main, hne1]
    simp [h1e, h1p, hu, hbad]
  have e4 : login_main cph users data2 = ⟨401, some "Invalid email or password", none, none⟩ := by
    rw [login_main, hne2]
    simp [h2e, h2p, hnou]
  exact ⟨e1.trans e2.symm, e1, e3.trans e4.symm, e3⟩

/-- Witness for C8 with hash check modeled as string equality: wrong password
against a@b.com versus unknown email z@b.com. -/
theorem login_failure_witness :
    login_auth (fun h p => h == p) [⟨1, "A", "B", none, "a@b.com", "secret", 0, "player", ""⟩]
        [("email", "a@b.com"), ("password", "wrong")] =
      login_auth (fun h p => h == p) [⟨1, "A", "B", none, "a@b.com", "secret", 0, "player", ""⟩]
        [("email", "z@b.com"), ("password", "wrong")] ∧
    login_auth (fun h p => h == p) [⟨1, "A", "B", none, "a@b.com", "secret", 0, "player", ""⟩]
        [("email", "a@b.com"), ("password", "wrong")] =
      ⟨401, some "Email o password non validi", none, none⟩ :=
  let t := login_failure_indistinguishable (fun h p => h == p)
    [⟨1, "A", "B", none, "a@b.com", "secret", 0, "player", ""⟩]
    [("email", "a@b.com"), ("password", "wrong")]
    [("email", "z@b.com"), ("password", "wrong")]
    ⟨1, "A", "B", none, "a@b.com", "secret", 0, "player", ""⟩
    rfl rfl rfl rfl rfl rfl rfl
  ⟨t.1, t.2.1⟩

/-- C10: every successful registration through the age-gated endpoint
appends exactly one User row, whose role is the literal "player" and whose
team is the payload's team value, the empty string when the payload omits
team — whatever other keys (such as a role) the payload carries. -/
theorem registered_user_role_is_player
    (gph : String → String) (today : PyDate)
    (users : List UserRow) (players : List PlayerRow)
    (nu np now : Int) (d : PyDate) (data : List (String × String))
    (h1 : jtruthy data "first_name" = true) (h2 : jtruthy data "last_name" = true)
    (h3 : jtruthy data "date_of_birth" = true) (h4 : jtruthy data "email" = true)
    (h5 : jtruthy data "password" = true)
    (hd : parseDate (jgetD data "date_of_birth" "") = some d)
    (ha : ¬ calculate_age today d < 14)
    (hnodup : users.any (fun u => u.email == jgetD data "email" "") = false) :
    ∃ u : UserRow,
      register_auth gph today users players nu np now data =
        ⟨201, none, some "/dashboard", users ++ [u], players ++ [⟨np, nu, now, 0, 0, 0⟩], some nu⟩ ∧
      u.role = "player" ∧
      u.team = jgetD data "team" "" ∧
      (jget data "team" = none → u.team = "") := by
  refine ⟨⟨nu, jgetD data "first_name" "", jgetD data "last_name" "", some d,
    jgetD data "email" "", gph (jgetD data "password" ""), now, "player",
    jgetD data "team" ""⟩, ?_, rfl, rfl, ?_⟩
  · have hne := jtruthy_ne_nil h1
    have hmiss : registerRequiredFields.filter (fun f => !(jtruthy data f)) = [] := by
      simp [registerRequiredFields, List.filter, h1, h2, h3, h4, h5]
    rw [register_auth, hne, hmiss, hd]
    simp only [bne_self_eq_false, Bool.false_eq_true, if_false, if_neg ha, hnodup,
      userNew_register_fields, playerNew_user_id]
    rfl
  · intro hnone
    simp [jgetD, hnone]

/-- Witness for C10: a successful registration whose payload supplies a role
value of coach and no team still produces role player and empty team. -/
theorem registered_user_role_witness :
    ∃ u : UserRow,
      register_auth (fun s => s) ⟨2026, 10, 12⟩ [] [] 1 1 0
          [("first_name", "A"), ("last_name", "B"), ("date_of_birth", "2000-01-01"),
           ("email", "a@b.com"), ("password", "x"), ("role", "coach")] =
        ⟨201, none, some "/dashboard", [] ++ [u], [] ++ [⟨1, 1, 0, 0, 0, 0⟩], some 1⟩ ∧
      u.role = "player" ∧
      u.team = jgetD [("first_name", "A"), ("last_name", "B"), ("date_of_birth", "2000-01-01"),
        ("email", "a@b.com"), ("password", "x"), ("role", "coach")] "team" "" ∧
      (jget [("first_name", "A"), ("last_name", "B"), ("date_of_birth", "2000-01-01"),
        ("email", "a@b.com"), ("password", "x"), ("role", "coach")] "team" = none →
        u.team = "") :=
  registered_user_role_is_player (fun s => s) ⟨2026, 10, 12⟩ [] [] 1 1 0 ⟨2000, 1, 1⟩
    [("first_name", "A"), ("last_name", "B"), ("date_of_birth", "2000-01-01"),
     ("email", "a@b.com"), ("password", "x"), ("role", "coach")]
    rfl rfl rfl rfl rfl rfl (by decide) rfl

/-- C9: the YouTube-URL check matches hosts by substring: the URL
https://notyoutube.com/watch?v=x has netloc "notyoutube.com", which is
neither youtube.com nor youtu.be, yet `is_youtube_url` accepts it and
`get_youtube_video_id` extracts the id "x"; consequently the external-link
branch of `upload_video` does not reject it as a non-YouTube URL. -/
theorem youtube_check_matches_hosts_by_substring :
    is_youtube_url "https://notyoutube.com/watch?v=x" = true ∧
    get_youtube_video_id "https://notyoutube.com/watch?v=x" = some "x" ∧
    (urlparse "https://notyoutube.com/watch?v=x").netloc = "notyoutube.com" ∧
    (urlparse "https://notyoutube.com/watch?v=x").netloc ≠ "youtube.com" ∧
    (urlparse "https://notyoutube.com/watch?v=x").netloc ≠ "youtu.be" ∧
    (upload_video (fun s => s) 1 1 [⟨1, 1, 0, 0, 0, 0⟩] [] 1 0
        ⟨some "t", some "url", none, 0, some "https://notyoutube.com/watch?v=x",
         none, none, none, none⟩).error ≠
      some "Only YouTube URLs are supported" := by
  refine ⟨rfl, rfl, rfl, by decide, by decide, by decide⟩
